import Mathlib

unseal Rat.add Rat.mul Rat.sub Rat.inv

/-
Verification development for the decision-execution core of the
open-nof1.ai trading agent.  The TypeScript sources are embedded
shallowly: numbers become rationals, nullable / optional numbers become
`Option ℚ`, JavaScript truthiness on numbers (0 is falsy) is made
explicit, and the exchange gateway plus database are modelled as an
explicit environment and ledger threaded through the execution
functions.
-/

namespace Nof1

-- ============================================
-- Basic enumerations (prisma schema enums)
-- ============================================

inductive Symbol
| BTC | ETH | BNB | SOL | DOGE
deriving DecidableEq, Fintype

inductive ExecutionStatus
| PENDING | EXECUTING | FILLED | PARTIAL | FAILED | CANCELED
deriving DecidableEq

inductive PositionStatus
| OPEN | CLOSED | LIQUIDATED
deriving DecidableEq

inductive Recommendation
| STRONG_BUY | BUY | NEUTRAL | SELL | STRONG_SELL
deriving DecidableEq

inductive TradingMode
| SURVIVAL | DEFENSIVE | NORMAL | OFFENSIVE | AGGRESSIVE
deriving DecidableEq

-- ============================================
-- Market-signal aggregator types (current-market-state.ts / indicators.ts)
-- ============================================

structure PivotPoints where
  pivot : ℚ
  r1 : ℚ
  r2 : ℚ
  s1 : ℚ
  s2 : ℚ
deriving DecidableEq

structure StochRSIResult where
  stochRSI : ℚ
  k : ℚ
  d : ℚ
deriving DecidableEq

inductive DivergenceType
| bullish | bearish | hidden_bullish | hidden_bearish
deriving DecidableEq

/-- `Divergence` from indicators.ts; `type` is `null` (here `none`) when no
divergence was detected. -/
structure Divergence where
  type : Option DivergenceType
  strength : ℚ
deriving DecidableEq

inductive Trend
| up | down | sideways
deriving DecidableEq

/-- Tags standing for the human-readable factor strings pushed by
`calculateConfluenceScore`; the exact strings carry no logic. -/
inductive ConfluenceFactor
| trend4hBullish | trend4hBearish
| dailyBullish | dailyBearish
| adxStrongBullish | adxStrongBearish | adxWeak
| rsiOversold | rsiOverbought | rsiNeutralZone
| stochBullishCross | stochBearishCross
| volumeSurge
| fundingCrowdedLongs | fundingShortsPaying
| divergenceBullish | divergenceBearish
| priceAtSupport | priceAtResistance
| nearLowerBand | nearUpperBand
deriving DecidableEq

structure ConfluenceScore where
  bullish : ℚ
  bearish : ℚ
  factors : List ConfluenceFactor
  recommendation : Recommendation
deriving DecidableEq

/-- The recommendation bucketing at the end of `calculateConfluenceScore`
(current-market-state.ts lines 1264-1268): it reads only the net score. -/
def recommendationOf (netScore : ℚ) : Recommendation :=
  if netScore ≥ 5 then .STRONG_BUY
  else if netScore ≥ 2 then .BUY
  else if netScore ≤ -5 then .STRONG_SELL
  else if netScore ≤ -2 then .SELL
  else .NEUTRAL

/-- Embedding of `calculateConfluenceScore` (current-market-state.ts).
Each numbered block yields its (bullish, bearish, factors) contribution;
the source accumulates the same contributions into mutable variables. -/
def calculateConfluenceScore (currentPrice ema20_4h ema50_4h adx rsi
    volumeRat fundingRate : ℚ) (divergence : Divergence)
    (stochRSI : StochRSIResult) (dailyTrend : Trend)
    (pivotPoints : PivotPoints) (bbPercentB : ℚ) : ConfluenceScore :=
  -- 1. Trend Alignment (weight: 2)
  let c1 : ℚ × ℚ × List ConfluenceFactor :=
    if ema20_4h > ema50_4h then (2, 0, [.trend4hBullish])
    else if ema20_4h < ema50_4h then (0, 2, [.trend4hBearish])
    else (0, 0, [])
  -- 2. Daily Trend Confirmation (weight: 1.5)
  let c2 : ℚ × ℚ × List ConfluenceFactor :=
    match dailyTrend with
    | .up => (3/2, 0, [.dailyBullish])
    | .down => (0, 3/2, [.dailyBearish])
    | .sideways => (0, 0, [])
  -- 3. ADX Strength (weight: 1.5)
  let c3 : ℚ × ℚ × List ConfluenceFactor :=
    if adx > 25 then
      if ema20_4h > ema50_4h then (3/2, 0, [.adxStrongBullish])
      else (0, 3/2, [.adxStrongBearish])
    else if adx < 20 then (0, 0, [.adxWeak])
    else (0, 0, [])
  -- 4. RSI Zones (weight: 1)
  let c4 : ℚ × ℚ × List ConfluenceFactor :=
    if rsi < 30 then (1, 0, [.rsiOversold])
    else if rsi > 70 then (0, 1, [.rsiOverbought])
    else if rsi ≥ 40 ∧ rsi ≤ 60 then (0, 0, [.rsiNeutralZone])
    else (0, 0, [])
  -- 5. StochRSI Signal (weight: 1)
  let c5 : ℚ × ℚ × List ConfluenceFactor :=
    if stochRSI.k < 20 ∧ stochRSI.k > stochRSI.d then (1, 0, [.stochBullishCross])
    else if stochRSI.k > 80 ∧ stochRSI.k < stochRSI.d then (0, 1, [.stochBearishCross])
    else (0, 0, [])
  -- 6. Volume Confirmation (weight: 0.5), added to the prevailing trend side
  let c6 : ℚ × ℚ × List ConfluenceFactor :=
    if volumeRat > 6/5 then
      if ema20_4h > ema50_4h then (1/2, 0, [.volumeSurge])
      else (0, 1/2, [.volumeSurge])
    else (0, 0, [])
  -- 7. Funding Rate (weight: 0.5)
  let c7 : ℚ × ℚ × List ConfluenceFactor :=
    if fundingRate > 5/10000 then (0, 1/2, [.fundingCrowdedLongs])
    else if fundingRate < -(1/10000) then (1/2, 0, [.fundingShortsPaying])
    else (0, 0, [])
  -- 8. Divergence (weight: 1.5 x strength)
  let c8 : ℚ × ℚ × List ConfluenceFactor :=
    match divergence.type with
    | some .bullish => (3/2 * divergence.strength, 0, [.divergenceBullish])
    | some .bearish => (0, 3/2 * divergence.strength, [.divergenceBearish])
    | _ => (0, 0, [])
  -- 9. Price vs Support/Resistance (weight: 1)
  let distToS1 := (currentPrice - pivotPoints.s1) / currentPrice
  let distToR1 := (pivotPoints.r1 - currentPrice) / currentPrice
  let c9 : ℚ × ℚ × List ConfluenceFactor :=
    if distToS1 < 1/100 ∧ distToS1 > -(1/200) then (1, 0, [.priceAtSupport])
    else if distToR1 < 1/100 ∧ distToR1 > -(1/200) then (0, 1, [.priceAtResistance])
    else (0, 0, [])
  -- 10. Bollinger %B (weight: 0.5)
  let c10 : ℚ × ℚ × List ConfluenceFactor :=
    if bbPercentB < 1/5 then (1/2, 0, [.nearLowerBand])
    else if bbPercentB > 4/5 then (0, 1/2, [.nearUpperBand])
    else (0, 0, [])
  let bullish := c1.1 + c2.1 + c3.1 + c4.1 + c5.1 + c6.1 + c7.1 + c8.1 + c9.1 + c10.1
  let bearish := c1.2.1 + c2.2.1 + c3.2.1 + c4.2.1 + c5.2.1 + c6.2.1 + c7.2.1
    + c8.2.1 + c9.2.1 + c10.2.1
  let factors := c1.2.2 ++ c2.2.2 ++ c3.2.2 ++ c4.2.2 ++ c5.2.2 ++ c6.2.2
    ++ c7.2.2 ++ c8.2.2 ++ c9.2.2 ++ c10.2.2
  { bullish := bullish, bearish := bearish, factors := factors,
    recommendation := recommendationOf (bullish - bearish) }

-- ============================================
-- Account risk profiler (account-information-and-performance.ts)
-- ============================================

/-- One row of `TRADING_MODE_THRESHOLDS`; `maxReturn = none` models the
`Infinity` bound of the AGGRESSIVE row. -/
structure ModeLimits where
  maxReturn : Option ℚ
  maxRisk : ℚ
  maxLeverage : ℚ
  maxPositions : ℕ
deriving DecidableEq

def TRADING_MODE_THRESHOLDS : TradingMode → ModeLimits
| .SURVIVAL => { maxReturn := some (-(1/10)), maxRisk := 1/200, maxLeverage := 2, maxPositions := 1 }
| .DEFENSIVE => { maxReturn := some (-(1/20)), maxRisk := 3/200, maxLeverage := 3, maxPositions := 2 }
| .NORMAL => { maxReturn := some (1/10), maxRisk := 1/50, maxLeverage := 5, maxPositions := 3 }
| .OFFENSIVE => { maxReturn := some (1/5), maxRisk := 1/40, maxLeverage := 7, maxPositions := 4 }
| .AGGRESSIVE => { maxReturn := none, maxRisk := 3/100, maxLeverage := 10, maxPositions := 5 }

structure ModeResult where
  mode : TradingMode
  maxRisk : ℚ
  maxLeverage : ℚ
  maxPositions : ℕ
deriving DecidableEq

/-- Embedding of `determineTradingMode`: a first-match-wins cascade whose
numeric bounds are the `maxReturn` entries of `TRADING_MODE_THRESHOLDS`
(the final AGGRESSIVE return is unconditional, so its `Infinity` bound is
never compared against). -/
def determineTradingMode (currentReturn : ℚ) : ModeResult :=
  if currentReturn < -(1/10) then
    { mode := .SURVIVAL, maxRisk := (TRADING_MODE_THRESHOLDS .SURVIVAL).maxRisk,
      maxLeverage := (TRADING_MODE_THRESHOLDS .SURVIVAL).maxLeverage,
      maxPositions := (TRADING_MODE_THRESHOLDS .SURVIVAL).maxPositions }
  else if currentReturn < -(1/20) then
    { mode := .DEFENSIVE, maxRisk := (TRADING_MODE_THRESHOLDS .DEFENSIVE).maxRisk,
      maxLeverage := (TRADING_MODE_THRESHOLDS .DEFENSIVE).maxLeverage,
      maxPositions := (TRADING_MODE_THRESHOLDS .DEFENSIVE).maxPositions }
  else if currentReturn < 1/10 then
    { mode := .NORMAL, maxRisk := (TRADING_MODE_THRESHOLDS .NORMAL).maxRisk,
      maxLeverage := (TRADING_MODE_THRESHOLDS .NORMAL).maxLeverage,
      maxPositions := (TRADING_MODE_THRESHOLDS .NORMAL).maxPositions }
  else if currentReturn < 1/5 then
    { mode := .OFFENSIVE, maxRisk := (TRADING_MODE_THRESHOLDS .OFFENSIVE).maxRisk,
      maxLeverage := (TRADING_MODE_THRESHOLDS .OFFENSIVE).maxLeverage,
      maxPositions := (TRADING_MODE_THRESHOLDS .OFFENSIVE).maxPositions }
  else
    { mode := .AGGRESSIVE, maxRisk := (TRADING_MODE_THRESHOLDS .AGGRESSIVE).maxRisk,
      maxLeverage := (TRADING_MODE_THRESHOLDS .AGGRESSIVE).maxLeverage,
      maxPositions := (TRADING_MODE_THRESHOLDS .AGGRESSIVE).maxPositions }

-- ============================================
-- Time (JavaScript Date, for checkLossLimits)
-- ============================================

/-- A point in time: a (local) calendar day counted from the Unix epoch and
a fraction of that day in `[0, 1)`.  1970-01-01 (day 0) was a Thursday, so
JavaScript's `getDay()` is `(day + 4) mod 7`. -/
structure Instant where
  day : ℤ
  tod : ℚ
deriving DecidableEq

def Instant.timeInDays (i : Instant) : ℚ := (i.day : ℚ) + i.tod

/-- JavaScript `getDay()` (0 = Sunday). -/
def jsWeekday (day : ℤ) : ℤ := (day + 4) % 7

/-- `new Date(now.getFullYear(), now.getMonth(), now.getDate())`: midnight
of the current calendar day. -/
def startOfDay (now : Instant) : Instant := { day := now.day, tod := 0 }

/-- `startOfWeek.setDate(now.getDate() - now.getDay()); setHours(0,0,0,0)`:
midnight of the most recent Sunday. -/
def startOfWeek (now : Instant) : Instant :=
  { day := now.day - jsWeekday now.day, tod := 0 }

def Instant.leB (a b : Instant) : Bool := decide (a.timeInDays ≤ b.timeInDays)

-- ============================================
-- Safety limits (executor.ts SAFETY_LIMITS)
-- ============================================

structure SafetyLimits where
  maxLeverage : ℚ
  minLeverage : ℚ
  maxPositionSizePercentage : ℚ
  minCashReserve : ℚ
  maxSlippagePercentage : ℚ
  minTradeAmountUsdt : ℚ
  maxPortfolioLeverage : ℚ
  maxDailyLossPercentage : ℚ
  maxWeeklyLossPercentage : ℚ
  minRiskReward : ℚ
  maxRiskPercentage : ℚ
  liquidationBuffer : ℚ

def SAFETY_LIMITS : SafetyLimits :=
  { maxLeverage := 20
    minLeverage := 1
    maxPositionSizePercentage := 1/2
    minCashReserve := 1/4
    maxSlippagePercentage := 3/200
    minTradeAmountUsdt := 10
    maxPortfolioLeverage := 5
    maxDailyLossPercentage := 1/20
    maxWeeklyLossPercentage := 1/10
    minRiskReward := 3/2
    maxRiskPercentage := 3/100
    liquidationBuffer := 3/20 }

-- ============================================
-- Ledger (prisma Position / Trade rows touched by the executor)
-- ============================================

inductive OrderId
| synthetic (ms : ℤ)
| exchange (n : ℕ)
deriving DecidableEq

inductive ExitReason
| MANUAL
deriving DecidableEq

structure Position where
  id : ℕ
  symbol : Symbol
  status : PositionStatus
  entryPrice : ℚ
  entryAmount : ℚ
  entryLeverage : ℚ
  entryOrderId : OrderId
  currentStopLoss : Option ℚ
  currentTakeProfit : Option ℚ
  exitPrice : Option ℚ
  exitAmount : Option ℚ
  exitOrderId : Option OrderId
  exitReason : Option ExitReason
  realizedPnl : Option ℚ
  closedAt : Option Instant
deriving DecidableEq

/-- The Position table plus the id the store would assign to the next
created row. -/
structure Ledger where
  positions : List Position
  nextId : ℕ
deriving DecidableEq

inductive ExecErr
| positionExists
| leverageOutOfBounds
| belowMinTradeSize
| positionSizeExceeded
| insufficientCashReserve
| stopLossNotBelowEntry
| takeProfitNotAboveEntry
| dailyLossLimit
| weeklyLossLimit
| noEquity
| portfolioLeverageExceeded
| riskPercentageExceeded
| riskRewardTooLow
| stopLossBelowLiquidation
| liquidationBufferTooSmall
| noOpenPosition
| noOpenPositionWaitNote
deriving DecidableEq

/-- The Trade row as the executor leaves it at the end of one operation
(the transient PENDING -> EXECUTING step always precedes the recorded
final state). -/
structure Trade where
  status : ExecutionStatus
  error : Option ExecErr
  binanceOrderId : Option OrderId
  executedPrice : Option ℚ
  executedAmount : Option ℚ
  executedAt : Option Instant
  positionId : Option ℕ
deriving DecidableEq

structure ExecutionResult where
  success : Bool
  orderId : Option OrderId
  executedPrice : Option ℚ
  executedAmount : Option ℚ
  error : Option ExecErr
deriving DecidableEq

-- ============================================
-- Exchange gateway model
-- ============================================

inductive OrderSide
| buy | sell
deriving DecidableEq

inductive ExchangeOrderType
| STOP_MARKET | TAKE_PROFIT_MARKET | LIMIT
deriving DecidableEq

structure OpenOrder where
  id : ℕ
  otype : ExchangeOrderType
deriving DecidableEq

inductive GatewayCall
| fetchTicker (symbol : Symbol)
| fetchBalance
| fetchPositionsQ
| setLeverage (leverage : ℚ) (symbol : Symbol)
| createMarketOrder (symbol : Symbol) (side : OrderSide) (amount : ℚ) (reduceOnly : Bool)
| createOrder (symbol : Symbol) (otype : ExchangeOrderType) (side : OrderSide)
    (stopPrice : ℚ) (reduceOnly : Bool)
| fetchOpenOrders (symbol : Symbol)
| cancelOrder (id : ℕ) (symbol : Symbol)
deriving DecidableEq

/-- Gateway calls that mutate exchange state (as opposed to read-only
fetches). -/
def GatewayCall.isMutation : GatewayCall → Bool
| .setLeverage _ _ => true
| .createMarketOrder _ _ _ _ => true
| .createOrder _ _ _ _ _ => true
| .cancelOrder _ _ => true
| _ => false

/-- The external world as one operation sees it: ticker price, futures
balance (`USDT.free` / `USDT.total`, with the source's `|| 0` defaulting
already applied), the notionals returned by `fetchPositions`, the clock,
and how a live market order would fill (`fillPrice` = `order.average`,
`fillAmount requested` = `order.filled`). -/
structure Env where
  price : ℚ
  balanceFree : ℚ
  balanceTotal : ℚ
  exchangeNotionals : List ℚ
  now : Instant
  nowMs : ℤ
  fillPrice : ℚ
  fillAmount : ℚ → ℚ
  liveOrderId : ℕ
  openOrders : List OpenOrder

/-- JavaScript truthiness on an optional number: `undefined` and `0` are
falsy. -/
def truthy (x : Option ℚ) : Bool :=
  match x with
  | none => false
  | some v => decide (v ≠ 0)

/-- JavaScript `x || 0` on a nullable number. -/
def jsOr0 (x : Option ℚ) : ℚ :=
  match x with
  | none => 0
  | some v => v

-- ============================================
-- Executor helper functions (executor.ts)
-- ============================================

def checkExistingPosition (positions : List Position) (symbol : Symbol) : Bool :=
  positions.any (fun p => decide (p.symbol = symbol ∧ p.status = PositionStatus.OPEN))

def getOpenPosition (positions : List Position) (symbol : Symbol) : Option Position :=
  positions.find? (fun p => decide (p.symbol = symbol ∧ p.status = PositionStatus.OPEN))

def validateCashAvailability (env : Env) (requiredAmount : ℚ) : Bool :=
  let availableCash := env.balanceFree
  let totalCash := env.balanceTotal
  let minReserve := totalCash * SAFETY_LIMITS.minCashReserve
  decide (availableCash - requiredAmount ≥ minReserve)

def validateLeverage (leverage : ℚ) : Bool :=
  if leverage < SAFETY_LIMITS.minLeverage ∨ leverage > SAFETY_LIMITS.maxLeverage then
    false
  else true

/-- NOTE: rational division is total with `x / 0 = 0`, so the JavaScript
`Infinity`/`NaN` behaviour at `totalCash = 0` is not reproduced; no claim
evaluates that corner. -/
def validatePositionSize (env : Env) (requiredCash : ℚ) : Bool :=
  let totalCash := env.balanceTotal
  let positionPercentage := requiredCash / totalCash
  if positionPercentage > SAFETY_LIMITS.maxPositionSizePercentage then false else true

def validateMinTradeSize (env : Env) (amount : ℚ) : Bool :=
  let currentPrice := env.price
  let tradeValueUSDT := amount * currentPrice
  if tradeValueUSDT < SAFETY_LIMITS.minTradeAmountUsdt then false else true

def validateSLTP (entryPrice : ℚ) (stopLoss takeProfit : Option ℚ) : Option ExecErr :=
  if truthy stopLoss && decide (jsOr0 stopLoss ≥ entryPrice) then
    some .stopLossNotBelowEntry
  else if truthy takeProfit && decide (jsOr0 takeProfit ≤ entryPrice) then
    some .takeProfitNotAboveEntry
  else none

def validatePortfolioLeverage (env : Env) (newPositionNotional : ℚ) : Option ExecErr :=
  let equity := env.balanceTotal
  if equity = 0 then some .noEquity
  else
    let currentNotional := (env.exchangeNotionals.map (fun n => |n|)).sum
    let totalNotional := currentNotional + newPositionNotional
    let portfolioLeverage := totalNotional / equity
    if portfolioLeverage > SAFETY_LIMITS.maxPortfolioLeverage then
      some .portfolioLeverageExceeded
    else none

/-- Embeds `validateRiskPercentage`; returns (error?, actualRisk). -/
def validateRiskPercentage (equity entryPrice : ℚ) (stopLoss : Option ℚ)
    (amount leverage : ℚ) : Option ExecErr × ℚ :=
  if !truthy stopLoss then (none, 0)
  else
    let stopDistance := |entryPrice - jsOr0 stopLoss|
    let potentialLoss := stopDistance * amount * leverage
    let actualRisk := potentialLoss / equity
    if actualRisk > SAFETY_LIMITS.maxRiskPercentage then
      (some .riskPercentageExceeded, actualRisk)
    else (none, actualRisk)

/-- Embeds `validateRiskRewardRatio`. -/
def validateRiskReward (entryPrice : ℚ) (stopLoss takeProfit : Option ℚ) :
    Option ExecErr :=
  if !truthy stopLoss || !truthy takeProfit then none
  else
    let risk := |entryPrice - jsOr0 stopLoss|
    let reward := |jsOr0 takeProfit - entryPrice|
    let rr := reward / risk
    if rr < SAFETY_LIMITS.minRiskReward then some .riskRewardTooLow else none

def validateLiquidationBuffer (entryPrice leverage : ℚ) (stopLoss : Option ℚ) :
    Option ExecErr :=
  let maintenanceMargin : ℚ := 1/250
  let liquidationPrice := entryPrice * (1 - 1/leverage + maintenanceMargin)
  let bufferFromEntry := (entryPrice - liquidationPrice) / entryPrice
  if truthy stopLoss && decide (jsOr0 stopLoss ≤ liquidationPrice) then
    some .stopLossBelowLiquidation
  else if bufferFromEntry < SAFETY_LIMITS.liquidationBuffer then
    some .liquidationBufferTooSmall
  else none

/-- CLOSED positions whose `closedAt` is at or after `cutoff` (the prisma
`closedAt: { gte: cutoff }, status: "CLOSED"` query; a null `closedAt`
never matches). -/
def closedSince (cutoff : Instant) (positions : List Position) : List Position :=
  positions.filter (fun p =>
    decide (p.status = PositionStatus.CLOSED) &&
    (match p.closedAt with
     | some t => cutoff.leB t
     | none => false))

def sumPnlSince (cutoff : Instant) (positions : List Position) : ℚ :=
  ((closedSince cutoff positions).map (fun p => jsOr0 p.realizedPnl)).sum

/-- Embeds `checkLossLimits`; `none` means `canTrade = true`. -/
def checkLossLimits (equity : ℚ) (now : Instant) (positions : List Position) :
    Option ExecErr :=
  let dailyPnl := sumPnlSince (startOfDay now) positions
  let weeklyPnl := sumPnlSince (startOfWeek now) positions
  if dailyPnl < -equity * SAFETY_LIMITS.maxDailyLossPercentage then
    some .dailyLossLimit
  else if weeklyPnl < -equity * SAFETY_LIMITS.maxWeeklyLossPercentage then
    some .weeklyLossLimit
  else none

/-- Gateway calls issued by `setStopLossTakeProfit`: cancel existing
protection orders, then recreate the provided (truthy) ones. -/
def sltpGatewayCalls (symbol : Symbol) (stopLoss takeProfit : Option ℚ)
    (openOrders : List OpenOrder) : List GatewayCall :=
  [GatewayCall.fetchOpenOrders symbol]
  ++ ((openOrders.filter (fun o =>
        decide (o.otype = ExchangeOrderType.STOP_MARKET
          ∨ o.otype = ExchangeOrderType.TAKE_PROFIT_MARKET))).map
      (fun o => GatewayCall.cancelOrder o.id symbol))
  ++ (if truthy stopLoss then
        [GatewayCall.createOrder symbol .STOP_MARKET .sell (jsOr0 stopLoss) true]
      else [])
  ++ (if truthy takeProfit then
        [GatewayCall.createOrder symbol .TAKE_PROFIT_MARKET .sell (jsOr0 takeProfit) true]
      else [])

-- ============================================
-- Execution functions (executor.ts / run.ts)
-- ============================================

structure BuyParams where
  symbol : Symbol
  amount : ℚ
  leverage : ℚ
  stopLoss : Option ℚ
  takeProfit : Option ℚ
deriving DecidableEq

structure SellParams where
  symbol : Symbol
  percentage : ℚ
deriving DecidableEq

structure UpdateSLTPParams where
  symbol : Symbol
  stopLoss : Option ℚ
  takeProfit : Option ℚ
deriving DecidableEq

/-- The observable outcome of one executor call: final ledger, final state
of the one Trade row the call owns, the returned `ExecutionResult`, and
the gateway calls made, in order. -/
structure OpOutcome where
  ledger : Ledger
  trade : Trade
  result : ExecutionResult
  calls : List GatewayCall
deriving DecidableEq

/-- Guard failure / exception path: Trade marked FAILED with the reason,
ledger untouched, `{ success: false, error }` returned. -/
def failedOutcome (led : Ledger) (e : ExecErr) (calls : List GatewayCall) : OpOutcome :=
  { ledger := led
    trade := { status := .FAILED, error := some e, binanceOrderId := none,
               executedPrice := none, executedAmount := none, executedAt := none,
               positionId := none }
    result := { success := false, orderId := none, executedPrice := none,
                executedAmount := none, error := some e }
    calls := calls }

/-- Embedding of `executeBuy`.  The guard chain and its gateway traffic
follow the source's order exactly (source guard numbering in comments). -/
def executeBuy (dryRun : Bool) (env : Env) (led : Ledger) (p : BuyParams) : OpOutcome :=
  -- Safety Guard 1: no existing open position (database read, no gateway call)
  if checkExistingPosition led.positions p.symbol then
    failedOutcome led .positionExists []
  -- Safety Guard 2: leverage bounds
  else if !validateLeverage p.leverage then
    failedOutcome led .leverageOutOfBounds []
  else
    -- Safety Guard 3: minimum trade size (fetches the ticker)
    let calls3 : List GatewayCall := [.fetchTicker p.symbol]
    if !validateMinTradeSize env p.amount then
      failedOutcome led .belowMinTradeSize calls3
    else
      -- Safety Guard 4: fetch the price again and compute required cash
      let currentPrice := env.price
      let requiredCash := p.amount * currentPrice / p.leverage
      let calls4 := calls3 ++ [GatewayCall.fetchTicker p.symbol]
      -- Safety Guard 5: single-position concentration limit (fetches balance)
      let calls5 := calls4 ++ [GatewayCall.fetchBalance]
      if !validatePositionSize env requiredCash then
        failedOutcome led .positionSizeExceeded calls5
      else
      -- Safety Guard 6: free-cash reserve (fetches balance)
      let calls6 := calls5 ++ [GatewayCall.fetchBalance]
      if !validateCashAvailability env requiredCash then
        failedOutcome led .insufficientCashReserve calls6
      else
      -- Safety Guard 7: SL/TP levels
      match validateSLTP currentPrice p.stopLoss p.takeProfit with
      | some e => failedOutcome led e calls6
      | none =>
      -- Safety Guard 8: daily/weekly loss limits (balance fetched first)
      let equity := env.balanceTotal
      let calls8 := calls6 ++ [GatewayCall.fetchBalance]
      match checkLossLimits equity env.now led.positions with
      | some e => failedOutcome led e calls8
      | none =>
      -- Safety Guard 9: portfolio leverage (fetches balance and positions)
      let positionNotional := p.amount * currentPrice
      let calls9 := calls8 ++ [GatewayCall.fetchBalance, GatewayCall.fetchPositionsQ]
      match validatePortfolioLeverage env positionNotional with
      | some e => failedOutcome led e calls9
      | none =>
      -- Safety Guard 10: risk percentage
      match (validateRiskPercentage equity currentPrice p.stopLoss p.amount p.leverage).1 with
      | some e => failedOutcome led e calls9
      | none =>
      -- Safety Guard 11: risk/reward
      match validateRiskReward currentPrice p.stopLoss p.takeProfit with
      | some e => failedOutcome led e calls9
      | none =>
      -- Safety Guard 12: liquidation buffer
      match validateLiquidationBuffer currentPrice p.leverage p.stopLoss with
      | some e => failedOutcome led e calls9
      | none =>
      if dryRun then
        -- DRY RUN: simulated fill at the current price, synthetic order id
        let orderId := OrderId.synthetic env.nowMs
        let position : Position :=
          { id := led.nextId, symbol := p.symbol, status := .OPEN,
            entryPrice := currentPrice, entryAmount := p.amount,
            entryLeverage := p.leverage, entryOrderId := orderId,
            currentStopLoss := p.stopLoss, currentTakeProfit := p.takeProfit,
            exitPrice := none, exitAmount := none, exitOrderId := none,
            exitReason := none, realizedPnl := none, closedAt := none }
        { ledger := { positions := led.positions ++ [position], nextId := led.nextId + 1 }
          trade := { status := .FILLED, error := none, binanceOrderId := some orderId,
                     executedPrice := some currentPrice, executedAmount := some p.amount,
                     executedAt := some env.now, positionId := some led.nextId }
          result := { success := true, orderId := some orderId,
                      executedPrice := some currentPrice,
                      executedAmount := some p.amount, error := none }
          calls := calls9 }
      else
        -- REAL EXECUTION: set leverage, market buy, then protection orders
        let orderId := OrderId.exchange env.liveOrderId
        let avg := env.fillPrice
        let filled := env.fillAmount p.amount
        let callsLive := calls9 ++
          [GatewayCall.setLeverage p.leverage p.symbol,
           GatewayCall.createMarketOrder p.symbol .buy p.amount false]
        let position : Position :=
          { id := led.nextId, symbol := p.symbol, status := .OPEN,
            entryPrice := avg, entryAmount := filled,
            entryLeverage := p.leverage, entryOrderId := orderId,
            currentStopLoss := p.stopLoss, currentTakeProfit := p.takeProfit,
            exitPrice := none, exitAmount := none, exitOrderId := none,
            exitReason := none, realizedPnl := none, closedAt := none }
        let callsProt :=
          if truthy p.stopLoss || truthy p.takeProfit then
            sltpGatewayCalls p.symbol p.stopLoss p.takeProfit env.openOrders
          else []
        { ledger := { positions := led.positions ++ [position], nextId := led.nextId + 1 }
          trade := { status := .FILLED, error := none, binanceOrderId := some orderId,
                     executedPrice := some avg, executedAmount := some filled,
                     executedAt := some env.now, positionId := some led.nextId }
          result := { success := true, orderId := some orderId,
                      executedPrice := some avg, executedAmount := some filled,
                      error := none }
          calls := callsLive ++ callsProt }

/-- Embedding of `executeSell`. -/
def executeSell (dryRun : Bool) (env : Env) (led : Ledger) (p : SellParams) : OpOutcome :=
  match getOpenPosition led.positions p.symbol with
  | none => failedOutcome led .noOpenPosition []
  | some position =>
    let amountToSell := position.entryAmount * p.percentage / 100
    let isPartialExit := decide (p.percentage < 100)
    let remainingAmount := position.entryAmount - amountToSell
    if dryRun then
      -- DRY RUN: simulated fill at the current ticker price
      let calls : List GatewayCall := [.fetchTicker p.symbol]
      let currentPrice := env.price
      let orderId := OrderId.synthetic env.nowMs
      let avg := currentPrice
      let filled := amountToSell
      let slicePnl := (avg - position.entryPrice) * filled * position.entryLeverage
      let newPositions :=
        if isPartialExit then
          led.positions.map (fun q =>
            if q.id = position.id then
              { q with entryAmount := remainingAmount,
                       realizedPnl := some (jsOr0 position.realizedPnl + slicePnl) }
            else q)
        else
          led.positions.map (fun q =>
            if q.id = position.id then
              { q with status := PositionStatus.CLOSED,
                       exitPrice := some avg, exitAmount := some filled,
                       exitOrderId := some orderId, exitReason := some .MANUAL,
                       realizedPnl := some (jsOr0 position.realizedPnl + slicePnl),
                       closedAt := some env.now }
            else q)
      { ledger := { led with positions := newPositions }
        trade := { status := .FILLED, error := none, binanceOrderId := some orderId,
                   executedPrice := some avg, executedAmount := some filled,
                   executedAt := some env.now, positionId := some position.id }
        result := { success := true, orderId := some orderId,
                    executedPrice := some avg, executedAmount := some filled,
                    error := none }
        calls := calls }
    else
      -- REAL EXECUTION: reduce-only market sell
      let calls : List GatewayCall :=
        [.createMarketOrder p.symbol .sell amountToSell true]
      let orderId := OrderId.exchange env.liveOrderId
      let avg := env.fillPrice
      let filled := env.fillAmount amountToSell
      let slicePnl := (avg - position.entryPrice) * filled * position.entryLeverage
      let newPositions :=
        if isPartialExit then
          led.positions.map (fun q =>
            if q.id = position.id then
              { q with entryAmount := remainingAmount,
                       realizedPnl := some (jsOr0 position.realizedPnl + slicePnl) }
            else q)
        else
          led.positions.map (fun q =>
            if q.id = position.id then
              { q with status := PositionStatus.CLOSED,
                       exitPrice := some avg, exitAmount := some filled,
                       exitOrderId := some orderId, exitReason := some .MANUAL,
                       realizedPnl := some (jsOr0 position.realizedPnl + slicePnl),
                       closedAt := some env.now }
            else q)
      { ledger := { led with positions := newPositions }
        trade := { status := .FILLED, error := none, binanceOrderId := some orderId,
                   executedPrice := some avg, executedAmount := some filled,
                   executedAt := some env.now, positionId := some position.id }
        result := { success := true, orderId := some orderId,
                    executedPrice := some avg, executedAmount := some filled,
                    error := none }
        calls := calls }

/-- JavaScript `x ?? fallback` on the optional update parameters. -/
def nullishUpdate (x : Option ℚ) (fallback : Option ℚ) : Option ℚ :=
  match x with
  | none => fallback
  | some v => some v

/-- Embedding of `updateStopLossTakeProfit` (HOLD adjustments). -/
def updateStopLossTakeProfit (dryRun : Bool) (env : Env) (led : Ledger)
    (p : UpdateSLTPParams) : OpOutcome :=
  match getOpenPosition led.positions p.symbol with
  | none => failedOutcome led .noOpenPosition []
  | some position =>
    let newSL := nullishUpdate p.stopLoss position.currentStopLoss
    let newTP := nullishUpdate p.takeProfit position.currentTakeProfit
    let newPositions := led.positions.map (fun q =>
      if q.id = position.id then
        { q with currentStopLoss := newSL, currentTakeProfit := newTP }
      else q)
    let calls :=
      if dryRun then ([] : List GatewayCall)
      else sltpGatewayCalls p.symbol p.stopLoss p.takeProfit env.openOrders
    { ledger := { led with positions := newPositions }
      trade := { status := .FILLED, error := none, binanceOrderId := none,
                 executedPrice := none, executedAmount := none,
                 executedAt := some env.now, positionId := some position.id }
      result := { success := true, orderId := none, executedPrice := none,
                  executedAmount := none, error := none }
      calls := calls }

/-- The HOLD branch of `run` (run.ts lines 296-359): with a truthy SL/TP
adjustment it first checks for an open position itself and, absent one,
marks the Trade FILLED with an explanatory note; only otherwise does it
invoke the executor. -/
def holdPipeline (dryRun : Bool) (env : Env) (led : Ledger) (symbol : Symbol)
    (stopLoss takeProfit : Option ℚ) : OpOutcome :=
  if truthy stopLoss || truthy takeProfit then
    if !checkExistingPosition led.positions symbol then
      { ledger := led
        trade := { status := .FILLED, error := some .noOpenPositionWaitNote,
                   binanceOrderId := none, executedPrice := none,
                   executedAmount := none, executedAt := none, positionId := none }
        result := { success := true, orderId := none, executedPrice := none,
                    executedAmount := none, error := none }
        calls := [] }
    else
      updateStopLossTakeProfit dryRun env led
        { symbol := symbol, stopLoss := stopLoss, takeProfit := takeProfit }
  else
    { ledger := led
      trade := { status := .FILLED, error := none, binanceOrderId := none,
                 executedPrice := none, executedAmount := none,
                 executedAt := none, positionId := none }
      result := { success := true, orderId := none, executedPrice := none,
                  executedAmount := none, error := none }
      calls := [] }

-- ============================================
-- Operation sequences and the open-position invariant
-- ============================================

inductive TradeOp
| buyOp (p : BuyParams)
| sellOp (p : SellParams)
| adjustOp (p : UpdateSLTPParams)

/-- Ledger effect of one executor call. -/
def applyOp (dryRun : Bool) (env : Env) (led : Ledger) : TradeOp → Ledger
| .buyOp p => (executeBuy dryRun env led p).ledger
| .sellOp p => (executeSell dryRun env led p).ledger
| .adjustOp p => (updateStopLossTakeProfit dryRun env led p).ledger

/-- Run a sequence of executor calls, each under its own mode/environment. -/
def applyOps (led : Ledger) : List (Bool × Env × TradeOp) → Ledger
| [] => led
| step :: rest => applyOps (applyOp step.1 step.2.1 led step.2.2) rest

def openCount (positions : List Position) (s : Symbol) : ℕ :=
  positions.countP (fun p => decide (p.symbol = s ∧ p.status = PositionStatus.OPEN))

def atMostOneOpenPerSymbol (led : Ledger) : Prop :=
  ∀ s : Symbol, openCount led.positions s ≤ 1

instance (led : Ledger) : Decidable (atMostOneOpenPerSymbol led) :=
  inferInstanceAs (Decidable (∀ s, openCount led.positions s ≤ 1))

-- ============================================
-- Spec-side definition for the loss-window comparison (claim C5)
-- ============================================

/-- Spec-side definition, written from the claim's words rather than the
source, for comparison with the source's calendar windows: realized P&L
summed over CLOSED positions closed within a rolling window of
`windowDays` days ending at the evaluation instant `now`. -/
def specRollingPnl (now : Instant) (windowDays : ℚ) (positions : List Position) : ℚ :=
  ((positions.filter (fun p =>
      decide (p.status = PositionStatus.CLOSED) &&
      (match p.closedAt with
       | some t => decide (now.timeInDays - windowDays ≤ t.timeInDays
                     ∧ t.timeInDays ≤ now.timeInDays)
       | none => false))).map (fun p => jsOr0 p.realizedPnl)).sum

-- ============================================
-- Order-id scrubbing for the DRY_RUN refinement (claim C7)
-- ============================================

def scrubPosition (q : Position) : Position :=
  { q with entryOrderId := OrderId.exchange 0, exitOrderId := none }

def scrubLedger (led : Ledger) : Ledger :=
  { led with positions := led.positions.map scrubPosition }

def scrubTrade (t : Trade) : Trade := { t with binanceOrderId := none }

def scrubResult (r : ExecutionResult) : ExecutionResult := { r with orderId := none }

-- ============================================
-- Concrete fixtures used by witnesses and counterexamples
-- ============================================

/-- A benign environment: price 100, equity 500, full fills at the ticker
price, no exchange positions, evaluated Sunday noon (day 3 is a Sunday:
`jsWeekday 3 = 0`). -/
def sampleEnv : Env :=
  { price := 100, balanceFree := 500, balanceTotal := 500,
    exchangeNotionals := [], now := { day := 3, tod := 1/2 }, nowMs := 0,
    fillPrice := 100, fillAmount := fun a => a, liveOrderId := 7,
    openOrders := [] }

def emptyLedger : Ledger := { positions := [], nextId := 1 }

/-- An OPEN BTC position: entry 90, amount 1, leverage 5. -/
def sampleOpenPosition : Position :=
  { id := 1, symbol := .BTC, status := .OPEN, entryPrice := 90,
    entryAmount := 1, entryLeverage := 5, entryOrderId := .exchange 3,
    currentStopLoss := some 85, currentTakeProfit := some 120,
    exitPrice := none, exitAmount := none, exitOrderId := none,
    exitReason := none, realizedPnl := none, closedAt := none }

/-- A position closed Saturday evening (day 2, 21:36) with a 100 USDT
loss: inside any 24-hour rolling window ending Sunday noon, but before
both the start of Sunday and the start of the calendar week. -/
def lateSaturdayLoss : Position :=
  { id := 9, symbol := .ETH, status := .CLOSED, entryPrice := 100,
    entryAmount := 1, entryLeverage := 5, entryOrderId := .exchange 4,
    currentStopLoss := none, currentTakeProfit := none,
    exitPrice := some 80, exitAmount := some 1, exitOrderId := some (.exchange 5),
    exitReason := some .MANUAL, realizedPnl := some (-100),
    closedAt := some { day := 2, tod := 9/10 } }

def saturdayLossLedger : Ledger := { positions := [lateSaturdayLoss], nextId := 10 }

def sampleBuyParams : BuyParams :=
  { symbol := .BTC, amount := 1, leverage := 5, stopLoss := none, takeProfit := none }

-- ============================================
-- Claim C8: confluence recommendation buckets
-- ============================================

/-- Claim C8: the confluence recommendation is determined solely by the
net score `bullish - bearish` through the fixed buckets: `net ≥ 5` gives
STRONG_BUY, `2 ≤ net < 5` gives BUY, `net ≤ -5` gives STRONG_SELL,
`-5 < net ≤ -2` gives SELL, otherwise NEUTRAL; in particular net 5 gives
STRONG_BUY, net 4.99 gives BUY and net -2 gives SELL. -/
theorem C8_confluence_recommendation_buckets :
    (∀ (currentPrice ema20_4h ema50_4h adx rsi volumeRat fundingRate : ℚ)
       (divergence : Divergence) (stochRSI : StochRSIResult) (dailyTrend : Trend)
       (pivotPoints : PivotPoints) (bbPercentB : ℚ),
       (calculateConfluenceScore currentPrice ema20_4h ema50_4h adx rsi volumeRat
          fundingRate divergence stochRSI dailyTrend pivotPoints bbPercentB).recommendation
         = recommendationOf
             ((calculateConfluenceScore currentPrice ema20_4h ema50_4h adx rsi volumeRat
                fundingRate divergence stochRSI dailyTrend pivotPoints bbPercentB).bullish
              - (calculateConfluenceScore currentPrice ema20_4h ema50_4h adx rsi volumeRat
                  fundingRate divergence stochRSI dailyTrend pivotPoints bbPercentB).bearish))
    ∧ (∀ net : ℚ,
        (net ≥ 5 → recommendationOf net = .STRONG_BUY)
        ∧ (2 ≤ net ∧ net < 5 → recommendationOf net = .BUY)
        ∧ (net ≤ -5 → recommendationOf net = .STRONG_SELL)
        ∧ (-5 < net ∧ net ≤ -2 → recommendationOf net = .SELL)
        ∧ (-2 < net ∧ net < 2 → recommendationOf net = .NEUTRAL))
    ∧ recommendationOf 5 = .STRONG_BUY
    ∧ recommendationOf (499/100) = .BUY
    ∧ recommendationOf (-2) = .SELL := by
  refine ⟨fun _ _ _ _ _ _ _ _ _ _ _ _ => rfl, fun net => ?_,
    by norm_num [recommendationOf], by norm_num [recommendationOf],
    by norm_num [recommendationOf]⟩
  refine ⟨?_, ?_, ?_, ?_, ?_⟩ <;> intro h <;>
    unfold recommendationOf <;>
    split_ifs with h1 h2 h3 h4 <;>
    first
    | rfl
    | (exfalso; rcases h with ⟨ha, hb⟩ <;> linarith)
    | (exfalso; linarith)

/-- Witness for C8 at net score 5. -/
theorem C8_witness :
    ((5:ℚ) ≥ 5) ∧ recommendationOf 5 = .STRONG_BUY :=
  ⟨by norm_num, (C8_confluence_recommendation_buckets.2.1 5).1 (by norm_num)⟩

-- ============================================
-- Claim C9: trading-mode table
-- ============================================

/-- Claim C9: `determineTradingMode` realizes the fixed ordered table,
first match wins, most defensive first; exactly one mode results for
every account return. -/
theorem C9_trading_mode_table :
    ∀ r : ℚ,
      (r < -(1/10) → determineTradingMode r =
        { mode := .SURVIVAL, maxRisk := 1/200, maxLeverage := 2, maxPositions := 1 })
      ∧ (-(1/10) ≤ r ∧ r < -(1/20) → determineTradingMode r =
        { mode := .DEFENSIVE, maxRisk := 3/200, maxLeverage := 3, maxPositions := 2 })
      ∧ (-(1/20) ≤ r ∧ r < 1/10 → determineTradingMode r =
        { mode := .NORMAL, maxRisk := 1/50, maxLeverage := 5, maxPositions := 3 })
      ∧ (1/10 ≤ r ∧ r < 1/5 → determineTradingMode r =
        { mode := .OFFENSIVE, maxRisk := 1/40, maxLeverage := 7, maxPositions := 4 })
      ∧ (1/5 ≤ r → determineTradingMode r =
        { mode := .AGGRESSIVE, maxRisk := 3/100, maxLeverage := 10, maxPositions := 5 }) := by
  intro r
  refine ⟨?_, ?_, ?_, ?_, ?_⟩ <;> intro h <;>
    unfold determineTradingMode <;>
    split_ifs with h1 h2 h3 h4 <;>
    first
    | rfl
    | (exfalso; rcases h with ⟨ha, hb⟩ <;> linarith)
    | (exfalso; linarith)

/-- Witness for C9: a 0% return (the spec's NORMAL scenario). -/
theorem C9_witness :
    ((-(1/20) ≤ (0:ℚ) ∧ (0:ℚ) < 1/10)) ∧ determineTradingMode 0 =
      { mode := .NORMAL, maxRisk := 1/50, maxLeverage := 5, maxPositions := 3 } :=
  ⟨by norm_num, (C9_trading_mode_table 0).2.2.1 (by norm_num)⟩

-- ============================================
-- Shared helper lemmas
-- ============================================

lemma truthy_none : truthy none = false := rfl

lemma truthy_some_zero : truthy (some 0) = false := by simp [truthy]

lemma validatePortfolioLeverage_cases (env : Env) (n : ℚ) :
    validatePortfolioLeverage env n = none
    ∨ validatePortfolioLeverage env n = some .noEquity
    ∨ validatePortfolioLeverage env n = some .portfolioLeverageExceeded := by
  unfold validatePortfolioLeverage
  dsimp only
  split_ifs <;> simp

lemma validateRiskPercentage_fst_cases (q e : ℚ) (sl : Option ℚ) (a lv : ℚ) :
    (validateRiskPercentage q e sl a lv).1 = none
    ∨ (validateRiskPercentage q e sl a lv).1 = some .riskPercentageExceeded := by
  unfold validateRiskPercentage
  dsimp only
  split_ifs <;> simp

lemma validateRiskReward_cases (e : ℚ) (sl tp : Option ℚ) :
    validateRiskReward e sl tp = none
    ∨ validateRiskReward e sl tp = some .riskRewardTooLow := by
  unfold validateRiskReward
  dsimp only
  split_ifs <;> simp

lemma validateLiquidationBuffer_cases (e lv : ℚ) (sl : Option ℚ) :
    validateLiquidationBuffer e lv sl = none
    ∨ validateLiquidationBuffer e lv sl = some .stopLossBelowLiquidation
    ∨ validateLiquidationBuffer e lv sl = some .liquidationBufferTooSmall := by
  unfold validateLiquidationBuffer
  dsimp only
  split_ifs <;> simp

lemma checkLossLimits_eq_none_iff (equity : ℚ) (now : Instant) (positions : List Position) :
    checkLossLimits equity now positions = none ↔
      ¬(sumPnlSince (startOfDay now) positions
          < -equity * SAFETY_LIMITS.maxDailyLossPercentage)
      ∧ ¬(sumPnlSince (startOfWeek now) positions
          < -equity * SAFETY_LIMITS.maxWeeklyLossPercentage) := by
  unfold checkLossLimits
  dsimp only
  split_ifs with hd hw
  · exact iff_of_false (by simp) (fun h => h.1 hd)
  · exact iff_of_false (by simp) (fun h => h.2 hw)
  · exact iff_of_true rfl ⟨hd, hw⟩

lemma checkLossLimits_mem (equity : ℚ) (now : Instant) (positions : List Position) :
    checkLossLimits equity now positions = none
    ∨ checkLossLimits equity now positions = some .dailyLossLimit
    ∨ checkLossLimits equity now positions = some .weeklyLossLimit := by
  unfold checkLossLimits
  dsimp only
  split_ifs <;> simp

lemma checkLossLimits_eq_daily_iff (equity : ℚ) (now : Instant) (positions : List Position) :
    checkLossLimits equity now positions = some .dailyLossLimit ↔
      sumPnlSince (startOfDay now) positions
        < -equity * SAFETY_LIMITS.maxDailyLossPercentage := by
  unfold checkLossLimits
  dsimp only
  split_ifs with hd hw
  · exact iff_of_true rfl hd
  · exact iff_of_false (by simp) hd
  · exact iff_of_false (by simp) hd

lemma checkLossLimits_eq_weekly_imp (equity : ℚ) (now : Instant) (positions : List Position) :
    checkLossLimits equity now positions = some .weeklyLossLimit →
      sumPnlSince (startOfWeek now) positions
        < -equity * SAFETY_LIMITS.maxWeeklyLossPercentage := by
  unfold checkLossLimits
  dsimp only
  split_ifs with hd hw
  · intro h; simp at h
  · intro _; exact hw
  · intro h; simp at h

-- ============================================
-- Claim C4 (corrected): leverage guard
-- ============================================

/-- Counterexample to C4 as stated: with an OPEN BTC position already in
the ledger, a Buy with leverage 50 (outside [1,20]) is rejected at guard
1 with the position-exists reason, not at guard 2 with the leverage
reason. -/
theorem C4_counterexample :
    ((50:ℚ) > SAFETY_LIMITS.maxLeverage)
    ∧ (executeBuy true sampleEnv { positions := [sampleOpenPosition], nextId := 2 }
        { sampleBuyParams with leverage := 50 }).trade.error = some .positionExists
    ∧ (executeBuy true sampleEnv { positions := [sampleOpenPosition], nextId := 2 }
        { sampleBuyParams with leverage := 50 }).trade.error
        ≠ some .leverageOutOfBounds := by
  refine ⟨by norm_num [SAFETY_LIMITS], by decide, by decide⟩

/-- Claim C4 (amended): provided no OPEN position already exists for the
symbol (so guard 1 passes), a Buy with leverage outside the configured
[1,20] bounds is rejected at guard 2: the Trade is FAILED with the
leverage reason, the result has success = false, and no gateway call of
any kind is made. -/
theorem C4_leverage_guard (dryRun : Bool) (env : Env) (led : Ledger) (p : BuyParams)
    (hno : checkExistingPosition led.positions p.symbol = false)
    (hlev : p.leverage < SAFETY_LIMITS.minLeverage
            ∨ p.leverage > SAFETY_LIMITS.maxLeverage) :
    (executeBuy dryRun env led p).trade.status = .FAILED
    ∧ (executeBuy dryRun env led p).trade.error = some .leverageOutOfBounds
    ∧ (executeBuy dryRun env led p).result.success = false
    ∧ (executeBuy dryRun env led p).calls = [] := by
  have hv : validateLeverage p.leverage = false := by
    unfold validateLeverage
    rw [if_pos hlev]
  unfold executeBuy
  simp [hno, hv, failedOutcome]

/-- Witness for C4 at leverage 50 on an empty ledger. -/
theorem C4_witness :
    checkExistingPosition emptyLedger.positions Symbol.BTC = false
    ∧ ((50:ℚ) < SAFETY_LIMITS.minLeverage ∨ (50:ℚ) > SAFETY_LIMITS.maxLeverage)
    ∧ (executeBuy true sampleEnv emptyLedger
        { sampleBuyParams with leverage := 50 }).calls = [] :=
  ⟨by decide, Or.inr (by norm_num [SAFETY_LIMITS]),
   (C4_leverage_guard true sampleEnv emptyLedger
      { sampleBuyParams with leverage := 50 }
      (by decide) (Or.inr (by norm_num [SAFETY_LIMITS]))).2.2.2⟩

-- ============================================
-- Claim C2 (corrected): guard order around the cash checks
-- ============================================

def c2Env : Env := { sampleEnv with balanceFree := 10, balanceTotal := 100 }

def c2Buy : BuyParams :=
  { symbol := .BTC, amount := 1, leverage := 1, stopLoss := none, takeProfit := none }

/-- Counterexample to C2 as stated: a Buy violating both the
single-position concentration limit and the free-cash reserve is rejected
with the concentration (position-size) reason, because the source
evaluates the concentration check (source guard 5) before the cash
reserve (source guard 6) -- the opposite of the spec's order 4 then 5. -/
theorem C2_counterexample :
    validatePositionSize c2Env (c2Buy.amount * c2Env.price / c2Buy.leverage) = false
    ∧ validateCashAvailability c2Env (c2Buy.amount * c2Env.price / c2Buy.leverage) = false
    ∧ (executeBuy true c2Env emptyLedger c2Buy).trade.error = some .positionSizeExceeded
    ∧ (executeBuy true c2Env emptyLedger c2Buy).trade.error
        ≠ some .insufficientCashReserve := by
  refine ⟨by decide, by decide, by decide, by decide⟩

/-- Claim C2 (amended): the Buy guards are evaluated strictly in the
source's order with the concentration limit before the free-cash reserve,
and the pipeline short-circuits: when guards 1-3 pass and both the
concentration limit and the cash reserve are violated, the Buy is
rejected with the concentration reason, the trade is FAILED, the ledger
is untouched, and the gateway traffic stops at the concentration check's
balance fetch (no later guard runs). -/
theorem C2_guard_order (dryRun : Bool) (env : Env) (led : Ledger) (p : BuyParams)
    (h1 : checkExistingPosition led.positions p.symbol = false)
    (h2 : validateLeverage p.leverage = true)
    (h3 : validateMinTradeSize env p.amount = true)
    (h4 : validatePositionSize env (p.amount * env.price / p.leverage) = false)
    (h5 : validateCashAvailability env (p.amount * env.price / p.leverage) = false) :
    executeBuy dryRun env led p =
      failedOutcome led .positionSizeExceeded
        [.fetchTicker p.symbol, .fetchTicker p.symbol, .fetchBalance] := by
  unfold executeBuy
  simp [h1, h2, h3, h4]

/-- Witness for C2 on a concrete account violating both cash checks. -/
theorem C2_witness :
    validatePositionSize c2Env (c2Buy.amount * c2Env.price / c2Buy.leverage) = false
    ∧ executeBuy true c2Env emptyLedger c2Buy =
        failedOutcome emptyLedger .positionSizeExceeded
          [.fetchTicker .BTC, .fetchTicker .BTC, .fetchBalance] :=
  ⟨by decide,
   C2_guard_order true c2Env emptyLedger c2Buy
     (by decide) (by decide) (by decide) (by decide) (by decide)⟩

-- ============================================
-- Claim C5 (corrected): loss-limit windows are calendar, not rolling
-- ============================================

/-- Counterexample to C5 as stated: evaluated Sunday noon, a 100 USDT
loss closed late Saturday evening lies inside the rolling 24-hour window
(and breaches the daily floor for 500 equity), yet `checkLossLimits`
admits the trade because its windows restart at midnight of the current
day and at midnight of the current week's Sunday; the full Buy pipeline
consequently succeeds. -/
theorem C5_counterexample :
    specRollingPnl sampleEnv.now 1 saturdayLossLedger.positions
        < -(sampleEnv.balanceTotal * SAFETY_LIMITS.maxDailyLossPercentage)
    ∧ checkLossLimits sampleEnv.balanceTotal sampleEnv.now saturdayLossLedger.positions = none
    ∧ (executeBuy true sampleEnv saturdayLossLedger sampleBuyParams).result.success = true := by
  refine ⟨by decide, by decide, by decide⟩

/-- Claim C5 (amended): once guards 1-7 of the source pipeline pass, the
loss-limit guard rejects the Buy (with the daily or weekly reason)
exactly when the realized P&L summed over positions closed since midnight
of the current calendar day is below -equity x 5%, or summed over
positions closed since midnight of the most recent Sunday is below
-equity x 10% -- calendar windows anchored at start-of-day/start-of-week,
not rolling windows ending at the evaluation instant. -/
theorem C5_loss_limit_guard (dryRun : Bool) (env : Env) (led : Ledger) (p : BuyParams)
    (h1 : checkExistingPosition led.positions p.symbol = false)
    (h2 : validateLeverage p.leverage = true)
    (h3 : validateMinTradeSize env p.amount = true)
    (h4 : validatePositionSize env (p.amount * env.price / p.leverage) = true)
    (h5 : validateCashAvailability env (p.amount * env.price / p.leverage) = true)
    (h6 : validateSLTP env.price p.stopLoss p.takeProfit = none) :
    ((executeBuy dryRun env led p).trade.error = some .dailyLossLimit
      ∨ (executeBuy dryRun env led p).trade.error = some .weeklyLossLimit)
    ↔ (sumPnlSince (startOfDay env.now) led.positions
          < -env.balanceTotal * SAFETY_LIMITS.maxDailyLossPercentage
       ∨ sumPnlSince (startOfWeek env.now) led.positions
          < -env.balanceTotal * SAFETY_LIMITS.maxWeeklyLossPercentage) := by
  unfold executeBuy
  simp only [h1, h2, h3, h4, h5, h6, Bool.not_true, Bool.false_eq_true, if_false]
  rcases hcl : checkLossLimits env.balanceTotal env.now led.positions with _ | e
  · have hconds := (checkLossLimits_eq_none_iff env.balanceTotal env.now led.positions).1 hcl
    simp only [hcl]
    refine iff_of_false ?_ (fun h => h.elim hconds.1 hconds.2)
    rcases validatePortfolioLeverage_cases env (p.amount * env.price) with h9 | h9 | h9
    · rcases validateRiskPercentage_fst_cases env.balanceTotal env.price p.stopLoss
          p.amount p.leverage with h10 | h10
      · rcases validateRiskReward_cases env.price p.stopLoss p.takeProfit with h11 | h11
        · rcases validateLiquidationBuffer_cases env.price p.leverage p.stopLoss
              with h12 | h12 | h12
          · cases dryRun <;> simp [h9, h10, h11, h12]
          · simp [h9, h10, h11, h12, failedOutcome]
          · simp [h9, h10, h11, h12, failedOutcome]
        · simp [h9, h10, h11, failedOutcome]
      · simp [h9, h10, failedOutcome]
    · simp [h9, failedOutcome]
    · simp [h9, failedOutcome]
  · rcases checkLossLimits_mem env.balanceTotal env.now led.positions with hmem | hmem | hmem
    · rw [hcl] at hmem; cases hmem
    · rw [hcl] at hmem
      have he : e = ExecErr.dailyLossLimit := by injection hmem
      subst he
      simp only [hcl]
      exact iff_of_true (by simp [failedOutcome])
        (Or.inl ((checkLossLimits_eq_daily_iff env.balanceTotal env.now led.positions).1 hcl))
    · rw [hcl] at hmem
      have he : e = ExecErr.weeklyLossLimit := by injection hmem
      subst he
      simp only [hcl]
      exact iff_of_true (by simp [failedOutcome])
        (Or.inr (checkLossLimits_eq_weekly_imp env.balanceTotal env.now led.positions hcl))

/-- Witness for C5: a 30 USDT loss closed Sunday morning breaches the
daily floor and the pipeline rejects the Buy. -/
def sundayLoss : Position :=
  { id := 12, symbol := .ETH, status := .CLOSED, entryPrice := 100,
    entryAmount := 1, entryLeverage := 5, entryOrderId := .exchange 6,
    currentStopLoss := none, currentTakeProfit := none,
    exitPrice := some 94, exitAmount := some 1, exitOrderId := some (.exchange 8),
    exitReason := some .MANUAL, realizedPnl := some (-30),
    closedAt := some { day := 3, tod := 1/4 } }

def sundayLossLedger : Ledger := { positions := [sundayLoss], nextId := 13 }

theorem C5_witness :
    (executeBuy true sampleEnv sundayLossLedger sampleBuyParams).trade.error
        = some .dailyLossLimit
    ∨ (executeBuy true sampleEnv sundayLossLedger sampleBuyParams).trade.error
        = some .weeklyLossLimit :=
  (C5_loss_limit_guard true sampleEnv sundayLossLedger sampleBuyParams
      (by decide) (by decide) (by decide) (by decide) (by decide) (by decide)).mpr
    (Or.inl (by decide))

-- ============================================
-- Claim C10: a SL/TP value of exactly 0 behaves as absent
-- ============================================

lemma validateSLTP_tp_zero (e : ℚ) (sl : Option ℚ) :
    validateSLTP e sl (some 0) = validateSLTP e sl none := by
  simp [validateSLTP, truthy]

lemma validateSLTP_sl_zero (e : ℚ) (tp : Option ℚ) :
    validateSLTP e (some 0) tp = validateSLTP e none tp := by
  simp [validateSLTP, truthy]

lemma validateRiskPercentage_sl_zero (q e a lv : ℚ) :
    validateRiskPercentage q e (some 0) a lv = validateRiskPercentage q e none a lv := by
  simp [validateRiskPercentage, truthy]

lemma validateRiskReward_sl_zero (e : ℚ) (tp : Option ℚ) :
    validateRiskReward e (some 0) tp = validateRiskReward e none tp := by
  simp [validateRiskReward, truthy]

lemma validateRiskReward_tp_zero (e : ℚ) (sl : Option ℚ) :
    validateRiskReward e sl (some 0) = validateRiskReward e sl none := by
  simp [validateRiskReward, truthy]

lemma validateLiquidationBuffer_sl_zero (e lv : ℚ) :
    validateLiquidationBuffer e lv (some 0) = validateLiquidationBuffer e lv none := by
  simp [validateLiquidationBuffer, truthy]

lemma sltpGatewayCalls_tp_zero (s : Symbol) (sl : Option ℚ) (oo : List OpenOrder) :
    sltpGatewayCalls s sl (some 0) oo = sltpGatewayCalls s sl none oo := by
  simp [sltpGatewayCalls, truthy]

lemma sltpGatewayCalls_sl_zero (s : Symbol) (tp : Option ℚ) (oo : List OpenOrder) :
    sltpGatewayCalls s (some 0) tp oo = sltpGatewayCalls s none tp oo := by
  simp [sltpGatewayCalls, truthy]

/-- The Trade row, returned result and gateway traffic of an outcome
(everything the caller observes apart from the stored Position rows). -/
def sansLedger (o : OpOutcome) : Trade × ExecutionResult × List GatewayCall :=
  (o.trade, o.result, o.calls)

set_option maxHeartbeats 1000000 in
/-- Claim C10: at the executor's interface a stop-loss or take-profit of
exactly 0 is treated as absent: the SL/TP level guard, the risk-percentage
guard, the risk/reward guard and the liquidation-buffer stop-loss
comparison all behave as if the value were missing, and the whole Buy
(trade record, returned result, and the gateway traffic, hence no
protection order for the zero value) behaves exactly as with the value
missing -- so a Buy with takeProfit = 0 is admitted whenever the same Buy
without a take-profit is, even though 0 is not strictly above the entry
price. -/
theorem C10_zero_sltp_as_absent :
    (∀ (e : ℚ) (sl : Option ℚ), validateSLTP e sl (some 0) = validateSLTP e sl none)
    ∧ (∀ (e : ℚ) (tp : Option ℚ), validateSLTP e (some 0) tp = validateSLTP e none tp)
    ∧ (∀ q e a lv : ℚ,
        validateRiskPercentage q e (some 0) a lv = validateRiskPercentage q e none a lv)
    ∧ (∀ (e : ℚ) (tp : Option ℚ),
        validateRiskReward e (some 0) tp = validateRiskReward e none tp)
    ∧ (∀ (e : ℚ) (sl : Option ℚ),
        validateRiskReward e sl (some 0) = validateRiskReward e sl none)
    ∧ (∀ e lv : ℚ,
        validateLiquidationBuffer e lv (some 0) = validateLiquidationBuffer e lv none)
    ∧ (∀ (dryRun : Bool) (env : Env) (led : Ledger) (sym : Symbol)
         (amt lv : ℚ) (sl : Option ℚ),
        sansLedger (executeBuy dryRun env led ⟨sym, amt, lv, sl, some 0⟩)
          = sansLedger (executeBuy dryRun env led ⟨sym, amt, lv, sl, none⟩))
    ∧ (∀ (dryRun : Bool) (env : Env) (led : Ledger) (sym : Symbol)
         (amt lv : ℚ) (tp : Option ℚ),
        sansLedger (executeBuy dryRun env led ⟨sym, amt, lv, some 0, tp⟩)
          = sansLedger (executeBuy dryRun env led ⟨sym, amt, lv, none, tp⟩)) := by
  refine ⟨validateSLTP_tp_zero, validateSLTP_sl_zero, validateRiskPercentage_sl_zero,
    validateRiskReward_sl_zero, validateRiskReward_tp_zero,
    validateLiquidationBuffer_sl_zero, ?_, ?_⟩
  · intro dryRun env led sym amt lv sl
    unfold executeBuy
    simp only [validateSLTP_tp_zero, validateRiskReward_tp_zero, sltpGatewayCalls_tp_zero,
      truthy_some_zero, truthy_none, Bool.or_false]
    (repeat' split) <;> rfl
  · intro dryRun env led sym amt lv tp
    unfold executeBuy
    simp only [validateSLTP_sl_zero, validateRiskPercentage_sl_zero,
      validateRiskReward_sl_zero, validateLiquidationBuffer_sl_zero,
      sltpGatewayCalls_sl_zero, truthy_some_zero, truthy_none, Bool.false_or]
    (repeat' split) <;> rfl

-- ============================================
-- Claim C6: Hold adjustments
-- ============================================

/-- Claim C6: a Hold decision supplying a (truthy) stopLoss and/or
takeProfit with no OPEN position for the symbol marks the Trade FILLED
with an explanatory note -- a benign no-op, never FAILED -- and leaves
the ledger untouched; when an OPEN position exists, only the supplied
field(s) of the position's currentStopLoss/currentTakeProfit change and
an unsupplied one is left untouched, and the Trade is FILLED. -/
theorem C6_hold_adjustment (dryRun : Bool) (env : Env) (led : Ledger)
    (sym : Symbol) (sl tp : Option ℚ) :
    ((truthy sl || truthy tp) = true →
      checkExistingPosition led.positions sym = false →
        (holdPipeline dryRun env led sym sl tp).trade.status = .FILLED
        ∧ (holdPipeline dryRun env led sym sl tp).trade.error
            = some .noOpenPositionWaitNote
        ∧ (holdPipeline dryRun env led sym sl tp).trade.status ≠ .FAILED
        ∧ (holdPipeline dryRun env led sym sl tp).ledger = led)
    ∧ (∀ position, getOpenPosition led.positions sym = some position →
        (updateStopLossTakeProfit dryRun env led ⟨sym, sl, tp⟩).ledger.positions
          = led.positions.map (fun q =>
              if q.id = position.id then
                { q with
                    currentStopLoss := nullishUpdate sl position.currentStopLoss,
                    currentTakeProfit := nullishUpdate tp position.currentTakeProfit }
              else q)
        ∧ (sl = none → nullishUpdate sl position.currentStopLoss
            = position.currentStopLoss)
        ∧ (tp = none → nullishUpdate tp position.currentTakeProfit
            = position.currentTakeProfit)
        ∧ (∀ v, sl = some v → nullishUpdate sl position.currentStopLoss = some v)
        ∧ (∀ v, tp = some v → nullishUpdate tp position.currentTakeProfit = some v)
        ∧ (updateStopLossTakeProfit dryRun env led ⟨sym, sl, tp⟩).trade.status
            = .FILLED) := by
  constructor
  · intro htr hno
    unfold holdPipeline
    simp [htr, hno]
  · intro position hpos
    unfold updateStopLossTakeProfit
    rw [hpos]
    refine ⟨rfl, ?_, ?_, ?_, ?_, rfl⟩
    · intro h; subst h; rfl
    · intro h; subst h; rfl
    · intro v h; subst h; rfl
    · intro v h; subst h; rfl

/-- Witness for C6: a Hold carrying a stop-loss adjustment on an empty
ledger is FILLED with the no-op note. -/
theorem C6_witness :
    (truthy (some (85:ℚ)) || truthy none) = true
    ∧ checkExistingPosition emptyLedger.positions Symbol.BTC = false
    ∧ (holdPipeline true sampleEnv emptyLedger .BTC (some 85) none).trade.status = .FILLED
    ∧ (holdPipeline true sampleEnv emptyLedger .BTC (some 85) none).trade.error
        = some .noOpenPositionWaitNote :=
  ⟨by decide, by decide,
   ((C6_hold_adjustment true sampleEnv emptyLedger .BTC (some 85) none).1
      (by decide) (by decide)).1,
   ((C6_hold_adjustment true sampleEnv emptyLedger .BTC (some 85) none).1
      (by decide) (by decide)).2.1⟩

-- ============================================
-- Claim C3: sell amount, slice P&L, partial vs full exit
-- ============================================

def btcLedger : Ledger := { positions := [sampleOpenPosition], nextId := 2 }

/-- Claim C3: against an OPEN position (orders filling in full at the
market price), a Sell fills entryAmount x percentage/100, the slice P&L
is (exit - entry) x filledAmount x entryLeverage, a partial Sell
(percentage < 100) decrements entryAmount by the filled amount,
accumulates the slice P&L, and leaves the position OPEN; a 100% Sell
closes the position with exitAmount equal to the pre-sell remaining
amount; the Trade is FILLED either way. -/
theorem C3_sell_math (dryRun : Bool) (env : Env) (led : Ledger) (sym : Symbol)
    (pct : ℚ) (position : Position)
    (hpos : getOpenPosition led.positions sym = some position)
    (hfp : env.fillPrice = env.price)
    (hfa : ∀ a, env.fillAmount a = a) :
    (executeSell dryRun env led ⟨sym, pct⟩).trade.status = .FILLED
    ∧ (executeSell dryRun env led ⟨sym, pct⟩).result.success = true
    ∧ (executeSell dryRun env led ⟨sym, pct⟩).trade.executedAmount
        = some (position.entryAmount * pct / 100)
    ∧ (pct < 100 →
        (executeSell dryRun env led ⟨sym, pct⟩).ledger.positions
          = led.positions.map (fun q =>
              if q.id = position.id then
                { q with
                    entryAmount :=
                      position.entryAmount - position.entryAmount * pct / 100,
                    realizedPnl := some (jsOr0 position.realizedPnl
                      + (env.price - position.entryPrice)
                        * (position.entryAmount * pct / 100)
                        * position.entryLeverage) }
              else q))
    ∧ (pct = 100 →
        (executeSell dryRun env led ⟨sym, pct⟩).ledger.positions
          = led.positions.map (fun q =>
              if q.id = position.id then
                { q with
                    status := PositionStatus.CLOSED,
                    exitPrice := some env.price,
                    exitAmount := some position.entryAmount,
                    exitOrderId := some (if dryRun then OrderId.synthetic env.nowMs
                                         else OrderId.exchange env.liveOrderId),
                    exitReason := some .MANUAL,
                    realizedPnl := some (jsOr0 position.realizedPnl
                      + (env.price - position.entryPrice)
                        * (position.entryAmount * 100 / 100)
                        * position.entryLeverage),
                    closedAt := some env.now }
              else q)) := by
  unfold executeSell
  rw [hpos]
  have hamt : position.entryAmount * (100:ℚ) / 100 = position.entryAmount := by
    rw [mul_div_assoc]; norm_num
  cases dryRun <;>
    simp only [Bool.false_eq_true, Bool.true_eq_false, if_true, if_false,
      ite_true, ite_false, hfp, hfa] <;>
    refine ⟨by trivial, by trivial, by trivial, ?_, ?_⟩ <;> intro h
  · have hb : decide (pct < 100) = true := by simpa using h
    simp only [hb, if_true, ite_true]
  · subst h
    have hb : decide ((100:ℚ) < 100) = false := by norm_num
    simp only [hb, Bool.false_eq_true, if_false, ite_false, hamt]
  · have hb : decide (pct < 100) = true := by simpa using h
    simp only [hb, if_true, ite_true]
  · subst h
    have hb : decide ((100:ℚ) < 100) = false := by norm_num
    simp only [hb, Bool.false_eq_true, if_false, ite_false, hamt]

/-- Witness for C3: a 40% Sell on entryAmount = 1 fills 0.4 and the spec's
partial-exit update applies. -/
theorem C3_witness :
    getOpenPosition btcLedger.positions Symbol.BTC = some sampleOpenPosition
    ∧ (executeSell true sampleEnv btcLedger ⟨.BTC, 40⟩).trade.executedAmount
        = some (sampleOpenPosition.entryAmount * 40 / 100)
    ∧ ((40:ℚ) < 100)
    ∧ (executeSell true sampleEnv btcLedger ⟨.BTC, 40⟩).ledger.positions
        = btcLedger.positions.map (fun q =>
            if q.id = sampleOpenPosition.id then
              { q with
                  entryAmount := sampleOpenPosition.entryAmount
                    - sampleOpenPosition.entryAmount * 40 / 100,
                  realizedPnl := some (jsOr0 sampleOpenPosition.realizedPnl
                    + (sampleEnv.price - sampleOpenPosition.entryPrice)
                      * (sampleOpenPosition.entryAmount * 40 / 100)
                      * sampleOpenPosition.entryLeverage) }
            else q) :=
  ⟨by decide,
   (C3_sell_math true sampleEnv btcLedger .BTC 40 sampleOpenPosition
      (by decide) rfl (fun a => rfl)).2.2.1,
   by norm_num,
   (C3_sell_math true sampleEnv btcLedger .BTC 40 sampleOpenPosition
      (by decide) rfl (fun a => rfl)).2.2.2.1 (by norm_num)⟩

-- ============================================
-- Claim C7: DRY_RUN refines live execution
-- ============================================

lemma scrubLedger_map_eq (led : Ledger) (f g : Position → Position)
    (h : ∀ q, scrubPosition (f q) = scrubPosition (g q)) :
    scrubLedger { led with positions := led.positions.map f }
      = scrubLedger { led with positions := led.positions.map g } := by
  unfold scrubLedger
  dsimp only
  rw [List.map_map, List.map_map]
  have hfg : scrubPosition ∘ f = scrubPosition ∘ g := funext fun q => h q
  rw [hfg]

set_option maxHeartbeats 1000000 in
/-- Claim C7: when every live market order fills in full at the current
market price, DRY_RUN produces exactly the same Trade and Position state
transitions as live mode -- guard outcomes, status transitions,
entry/exit fields, realized P&L -- differing only in the synthetic order
id, and it makes no gateway mutation call. -/
theorem C7_dry_run_equivalence (env : Env) (led : Ledger)
    (hfp : env.fillPrice = env.price)
    (hfa : ∀ a, env.fillAmount a = a) :
    (∀ p : BuyParams,
      scrubLedger (executeBuy true env led p).ledger
        = scrubLedger (executeBuy false env led p).ledger
      ∧ scrubTrade (executeBuy true env led p).trade
        = scrubTrade (executeBuy false env led p).trade
      ∧ scrubResult (executeBuy true env led p).result
        = scrubResult (executeBuy false env led p).result
      ∧ (executeBuy true env led p).calls.all (fun c => !c.isMutation) = true)
    ∧ (∀ p : SellParams,
      scrubLedger (executeSell true env led p).ledger
        = scrubLedger (executeSell false env led p).ledger
      ∧ scrubTrade (executeSell true env led p).trade
        = scrubTrade (executeSell false env led p).trade
      ∧ scrubResult (executeSell true env led p).result
        = scrubResult (executeSell false env led p).result
      ∧ (executeSell true env led p).calls.all (fun c => !c.isMutation) = true)
    ∧ (∀ p : UpdateSLTPParams,
      (updateStopLossTakeProfit true env led p).ledger
        = (updateStopLossTakeProfit false env led p).ledger
      ∧ (updateStopLossTakeProfit true env led p).trade
        = (updateStopLossTakeProfit false env led p).trade
      ∧ (updateStopLossTakeProfit true env led p).result
        = (updateStopLossTakeProfit false env led p).result
      ∧ (updateStopLossTakeProfit true env led p).calls.all
          (fun c => !c.isMutation) = true) := by
  refine ⟨fun p => ?_, fun p => ?_, fun p => ?_⟩
  · unfold executeBuy
    simp only [hfp, hfa, if_true, if_false, ite_true, ite_false]
    (repeat' split) <;>
      refine ⟨?_, ?_, ?_, ?_⟩ <;>
      first
      | rfl
      | simp [scrubLedger, scrubPosition, scrubTrade, scrubResult]
  · unfold executeSell
    simp only [hfp, hfa, if_true, if_false, ite_true, ite_false]
    (repeat' split) <;>
      refine ⟨?_, ?_, ?_, ?_⟩ <;>
      first
      | rfl
      | (apply scrubLedger_map_eq; intro q; split <;> rfl)
      | simp [scrubLedger, scrubPosition, scrubTrade, scrubResult]
  · unfold updateStopLossTakeProfit
    rcases h : getOpenPosition led.positions p.symbol with _ | position <;>
      exact ⟨rfl, rfl, rfl, rfl⟩

/-- Witness for C7: dry and live 40% Sells coincide after scrubbing the
order id. -/
theorem C7_witness :
    sampleEnv.fillPrice = sampleEnv.price
    ∧ scrubTrade (executeSell true sampleEnv btcLedger ⟨.BTC, 40⟩).trade
        = scrubTrade (executeSell false sampleEnv btcLedger ⟨.BTC, 40⟩).trade
    ∧ (executeSell true sampleEnv btcLedger ⟨.BTC, 40⟩).calls.all
        (fun c => !c.isMutation) = true :=
  ⟨rfl,
   ((C7_dry_run_equivalence sampleEnv btcLedger rfl (fun a => rfl)).2.1 ⟨.BTC, 40⟩).2.1,
   ((C7_dry_run_equivalence sampleEnv btcLedger rfl (fun a => rfl)).2.1 ⟨.BTC, 40⟩).2.2.2⟩

-- ============================================
-- Claim C1: at most one OPEN position per symbol
-- ============================================

lemma openCount_append (l l' : List Position) (s : Symbol) :
    openCount (l ++ l') s = openCount l s + openCount l' s :=
  List.countP_append _ _ _

lemma checkExisting_eq_false_iff (l : List Position) (s : Symbol) :
    checkExistingPosition l s = false ↔ openCount l s = 0 := by
  simp [checkExistingPosition, openCount, List.any_eq_false, List.countP_eq_zero]

lemma openCount_singleton_le (pos : Position) (s : Symbol) :
    openCount [pos] s ≤ 1 := by
  unfold openCount
  simp [List.countP_cons]
  split_ifs <;> simp

lemma openCount_singleton_ne (pos : Position) (s : Symbol) (h : pos.symbol ≠ s) :
    openCount [pos] s = 0 := by
  unfold openCount
  simp [List.countP_cons, h]

lemma openCount_map_le (l : List Position) (f : Position → Position) (s : Symbol)
    (hs : ∀ q, (f q).symbol = q.symbol)
    (ho : ∀ q, (f q).status = PositionStatus.OPEN → q.status = PositionStatus.OPEN) :
    openCount (l.map f) s ≤ openCount l s := by
  unfold openCount
  rw [List.countP_map]
  apply List.countP_mono_left
  intro a _ h
  simp only [Function.comp_apply, decide_eq_true_eq] at h ⊢
  exact ⟨by rw [← hs a]; exact h.1, ho a h.2⟩

set_option maxHeartbeats 1600000 in
lemma executeBuy_cases (d : Bool) (env : Env) (led : Ledger) (p : BuyParams) :
    ((executeBuy d env led p).ledger = led
      ∧ (executeBuy d env led p).result.success = false)
    ∨ (checkExistingPosition led.positions p.symbol = false
       ∧ (executeBuy d env led p).result.success = true
       ∧ ∃ pos : Position, pos.symbol = p.symbol
          ∧ (executeBuy d env led p).ledger.positions = led.positions ++ [pos]) := by
  unfold executeBuy
  dsimp only
  split
  · exact Or.inl ⟨rfl, rfl⟩
  next h =>
    have h' : checkExistingPosition led.positions p.symbol = false := by
      simpa using h
    (repeat' split) <;>
      first
      | exact Or.inl ⟨rfl, rfl⟩
      | exact Or.inr ⟨h', rfl, _, rfl, rfl⟩

lemma executeBuy_unchanged_of_failure (d : Bool) (env : Env) (led : Ledger)
    (p : BuyParams) (h : (executeBuy d env led p).result.success = false) :
    (executeBuy d env led p).ledger = led := by
  rcases executeBuy_cases d env led p with ⟨hl, _⟩ | ⟨_, hs, _⟩
  · exact hl
  · rw [hs] at h; cases h

lemma executeBuy_refused (d : Bool) (env : Env) (led : Ledger) (p : BuyParams)
    (h : checkExistingPosition led.positions p.symbol = true) :
    (executeBuy d env led p).trade.status = .FAILED
    ∧ (executeBuy d env led p).trade.error = some .positionExists
    ∧ (executeBuy d env led p).result.success = false
    ∧ (executeBuy d env led p).ledger = led := by
  unfold executeBuy
  simp [h, failedOutcome]

lemma executeSell_openCount_le (d : Bool) (env : Env) (led : Ledger)
    (p : SellParams) (s : Symbol) :
    openCount (executeSell d env led p).ledger.positions s
      ≤ openCount led.positions s := by
  unfold executeSell
  rcases h : getOpenPosition led.positions p.symbol with _ | position
  · exact le_rfl
  · dsimp only
    (repeat' split) <;>
      (refine openCount_map_le _ _ _ ?_ ?_ <;> intro q <;> split <;> simp)

lemma updateSLTP_openCount_le (d : Bool) (env : Env) (led : Ledger)
    (p : UpdateSLTPParams) (s : Symbol) :
    openCount (updateStopLossTakeProfit d env led p).ledger.positions s
      ≤ openCount led.positions s := by
  unfold updateStopLossTakeProfit
  rcases h : getOpenPosition led.positions p.symbol with _ | position
  · exact le_rfl
  · refine openCount_map_le _ _ _ ?_ ?_ <;> intro q <;> split <;> simp

lemma applyOp_invariant (d : Bool) (env : Env) (led : Ledger) (op : TradeOp)
    (h : atMostOneOpenPerSymbol led) : atMostOneOpenPerSymbol (applyOp d env led op) := by
  cases op with
  | buyOp p =>
    intro s
    show openCount (executeBuy d env led p).ledger.positions s ≤ 1
    rcases executeBuy_cases d env led p with ⟨hcase, _⟩ | ⟨hno, _, pos, hsym, hpos⟩
    · rw [hcase]; exact h s
    · rw [hpos, openCount_append]
      by_cases hs : s = p.symbol
      · subst hs
        rw [(checkExisting_eq_false_iff _ _).1 hno]
        simpa using openCount_singleton_le pos p.symbol
      · have : openCount [pos] s = 0 :=
          openCount_singleton_ne pos s (by rw [hsym]; exact fun hh => hs hh.symm)
        rw [this]
        simpa using h s
  | sellOp p =>
    intro s
    exact le_trans (executeSell_openCount_le d env led p s) (h s)
  | adjustOp p =>
    intro s
    exact le_trans (updateSLTP_openCount_le d env led p s) (h s)

lemma applyOps_invariant :
    ∀ (steps : List (Bool × Env × TradeOp)) (led : Ledger),
      atMostOneOpenPerSymbol led → atMostOneOpenPerSymbol (applyOps led steps) := by
  intro steps
  induction steps with
  | nil => intro led h; exact h
  | cons st rest ih =>
    intro led h
    exact ih _ (applyOp_invariant st.1 st.2.1 led st.2.2 h)

/-- Claim C1: starting from a ledger with at most one OPEN position per
symbol, any sequence of executeBuy / executeSell / updateStopLossTakeProfit
calls preserves the invariant; executeBuy refuses (Trade FAILED with the
position-exists reason, ledger untouched) whenever an OPEN position for
the symbol already exists; an unsuccessful Buy never changes the ledger;
and Sells and Hold adjustments never increase the number of OPEN
positions of any symbol. -/
theorem C1_one_open_position_invariant
    (steps : List (Bool × Env × TradeOp)) (led : Ledger)
    (hinv : atMostOneOpenPerSymbol led) :
    atMostOneOpenPerSymbol (applyOps led steps)
    ∧ (∀ (d : Bool) (env : Env) (p : BuyParams),
        checkExistingPosition led.positions p.symbol = true →
          (executeBuy d env led p).trade.status = .FAILED
          ∧ (executeBuy d env led p).trade.error = some .positionExists
          ∧ (executeBuy d env led p).result.success = false
          ∧ (executeBuy d env led p).ledger = led)
    ∧ (∀ (d : Bool) (env : Env) (p : BuyParams),
        (executeBuy d env led p).result.success = false →
          (executeBuy d env led p).ledger = led)
    ∧ (∀ (d : Bool) (env : Env) (p : SellParams) (s : Symbol),
        openCount (executeSell d env led p).ledger.positions s
          ≤ openCount led.positions s)
    ∧ (∀ (d : Bool) (env : Env) (p : UpdateSLTPParams) (s : Symbol),
        openCount (updateStopLossTakeProfit d env led p).ledger.positions s
          ≤ openCount led.positions s) :=
  ⟨applyOps_invariant steps led hinv,
   fun d env p h => executeBuy_refused d env led p h,
   fun d env p h => executeBuy_unchanged_of_failure d env led p h,
   fun d env p s => executeSell_openCount_le d env led p s,
   fun d env p s => updateSLTP_openCount_le d env led p s⟩

/-- Witness for C1: a Buy then a 40% Sell then a 100% Sell on BTC,
starting from an empty ledger, keeps at most one OPEN position per
symbol; and a second Buy after the first is refused. -/
theorem C1_witness :
    atMostOneOpenPerSymbol emptyLedger
    ∧ atMostOneOpenPerSymbol
        (applyOps emptyLedger
          [(true, sampleEnv, .buyOp sampleBuyParams),
           (true, sampleEnv, .buyOp sampleBuyParams),
           (true, sampleEnv, .sellOp ⟨.BTC, 40⟩),
           (true, sampleEnv, .sellOp ⟨.BTC, 100⟩)]) :=
  ⟨by decide,
   (C1_one_open_position_invariant
      [(true, sampleEnv, .buyOp sampleBuyParams),
       (true, sampleEnv, .buyOp sampleBuyParams),
       (true, sampleEnv, .sellOp ⟨.BTC, 40⟩),
       (true, sampleEnv, .sellOp ⟨.BTC, 100⟩)]
      emptyLedger (by decide)).1⟩

end Nof1
